import Mathlib

/-!
Shallow embedding of `src/middlewared/middlewared/plugins/service.py`:
the readiness-detection and status-aggregation engine of the service
supervisor (`StartNotify` and `ServiceService`).

Modelling conventions:
* Time is measured in tenths of the source's time unit, so `time.sleep(1)`
  advances the clock by 10 and `time.sleep(0.1)` advances it by 1.
* The filesystem state seen by a watcher is a function of time
  (`MarkerEnv`): `present t` models `os.path.exists(pidfile)` at time `t`
  and `size t` models `os.stat(pidfile).st_size` at time `t`.
* External command execution (`Popen`/`pgrep`) is modelled by an
  environment `Sys`: `pgrepOut cmd = some out` means the command exited
  with returncode 0 and stdout `out`; `none` means a non-zero returncode.
* Python's dynamic method lookup `getattr(self, '_<action>_<what>')` is
  modelled by `Sys.special action what : Option Bool`, where `some b`
  means the method exists and `b` tells whether calling it raises;
  `getattr(self, '_started_<what>')` is `Sys.startedSpecial`.
* A Python dict comprehension and its iteration are modelled as an
  insertion-ordered association (CPython dicts preserve insertion order).
-/

namespace Middleware

/-! ### StartNotify (the Readiness Watcher) -/

/-- Filesystem state over time, as observed by one watcher:
`present t` = `os.path.exists(pidfile)` at time `t` (tenths),
`size t` = `os.stat(pidfile).st_size` at time `t`. -/
structure MarkerEnv where
  present : Nat → Bool
  size : Nat → Nat

/-- Outcome of one `StartNotify.run` execution: whether the loop broke
early (`success`), how many poll iterations ran (`polls`), and the time
at which the thread finished (`endTime`, in tenths). -/
structure RunResult where
  success : Bool
  polls : Nat
  endTime : Nat
  deriving DecidableEq, Repr

/-- One iteration's check of `StartNotify.run`, entered at time `t`
(just after the `time.sleep(1)`).  For `start`/`restart` the source first
tests `os.path.exists`, sleeps 0.1 if the file exists, then re-tests
existence and checks `st_size > 0`; for `stop` it tests that the file no
longer exists.  Returns the break condition and the time after the check
(which includes the optional 0.1 grace sleep). -/
def pollCheck (env : MarkerEnv) (verb : String) (t : Nat) : Bool × Nat :=
  if verb = "start" || verb = "restart" then
    let t1 := if env.present t then t + 1 else t
    (env.present t1 && decide (0 < env.size t1), t1)
  else if verb = "stop" then
    (!env.present t, t)
  else
    (false, t)

/-- The `while tries < 6` loop of `StartNotify.run`, with `rem`
remaining iterations (the source enters with `tries = 1`, so `rem = 5`),
current clock `t` and iterations executed so far `polls`.  Each
iteration sleeps one time unit (10 tenths) before its check. -/
def runLoop (env : MarkerEnv) (verb : String) : Nat → Nat → Nat → RunResult
  | 0, t, polls => ⟨false, polls, t⟩
  | rem + 1, t, polls =>
    let c := pollCheck env verb (t + 10)
    if c.1 then ⟨true, polls + 1, c.2⟩
    else runLoop env verb rem c.2 (polls + 1)

/-- `StartNotify.run`: with no pidfile the thread returns immediately
(`return None` before the loop); otherwise it runs the bounded poll
loop starting at time 0 with `tries = 1`. -/
def StartNotify.run (env : MarkerEnv) (pidfile : Option String) (verb : String) : RunResult :=
  match pidfile with
  | none => ⟨false, 0, 0⟩
  | some _ => runLoop env verb 5 0 0

/-! ### ServiceService: service definition table and process lookup -/

/-- One row of `SERVICE_DEFS`: `(procname, pidfile)`. -/
structure SvcDef where
  procname : Option String
  pidfile : Option String
  deriving DecidableEq, Repr

/-- The static `SERVICE_DEFS` table of `ServiceService`. -/
def SERVICE_DEFS : List (String × SvcDef) :=
  [ ("ssh", ⟨some "sshd", some "/var/run/sshd.pid"⟩),
    ("rsync", ⟨some "rsync", some "/var/run/rsyncd.pid"⟩),
    ("nfs", ⟨some "nfsd", none⟩),
    ("afp", ⟨some "netatalk", none⟩),
    ("cifs", ⟨some "smbd", some "/var/run/samba/smbd.pid"⟩),
    ("dynamicdns", ⟨some "inadyn-mt", none⟩),
    ("snmp", ⟨some "snmpd", some "/var/run/net_snmpd.pid"⟩),
    ("ftp", ⟨some "proftpd", some "/var/run/proftpd.pid"⟩),
    ("tftp", ⟨some "inetd", some "/var/run/inetd.pid"⟩),
    ("iscsitarget", ⟨some "ctld", some "/var/run/ctld.pid"⟩),
    ("lldp", ⟨some "ladvd", some "/var/run/ladvd.pid"⟩),
    ("ups", ⟨some "upsd", some "/var/db/nut/upsd.pid"⟩),
    ("upsmon", ⟨some "upsmon", some "/var/db/nut/upsmon.pid"⟩),
    ("smartd", ⟨some "smartd", some "/var/run/smartd.pid"⟩),
    ("webshell", ⟨none, some "/var/run/webshell.pid"⟩),
    ("webdav", ⟨some "httpd", some "/var/run/httpd.pid"⟩),
    ("backup", ⟨none, some "/var/run/backup.pid"⟩) ]

/-- `what in SERVICE_DEFS` / `SERVICE_DEFS[what]`. -/
def lookupDef (what : String) : Option SvcDef :=
  List.lookup what SERVICE_DEFS

/-- The pgrep command string built by `_started`:
`"/bin/pgrep -F {pidfile}{' ' + procname if procname else ''}"` when a
pidfile is configured, else `"/bin/pgrep {procname}"` (Python's
`format` would render a missing procname as the text "None"; no table
row has both fields absent). -/
def pgrepCmd (d : SvcDef) : String :=
  match d.pidfile with
  | some pf =>
    "/bin/pgrep -F " ++ pf ++ (match d.procname with
      | some p => " " ++ p
      | none => "")
  | none =>
    "/bin/pgrep " ++ (match d.procname with
      | some p => p
      | none => "None")

/-- Python's `str.strip()`: drop whitespace from both ends. -/
def pyStrip (cs : List Char) : List Char :=
  ((cs.dropWhile Char.isWhitespace).reverse.dropWhile Char.isWhitespace).reverse

/-- Python's `str.split(sep)` for a one-character separator: cut at
every occurrence, keeping empty pieces. -/
def pySplit (sep : Char) : List Char → List (List Char)
  | [] => [[]]
  | c :: cs =>
    if c = sep then [] :: pySplit sep cs
    else match pySplit sep cs with
      | [] => [[c]]
      | l :: ls => (c :: l) :: ls

/-- Python's `str.isdigit()`: non-empty and every character a digit. -/
def pyIsDigit (cs : List Char) : Bool :=
  !cs.isEmpty && cs.all Char.isDigit

/-- Python's `int(...)` on a digit string. -/
def digitsToNat (cs : List Char) : Nat :=
  cs.foldl (fun n c => 10 * n + (c.toNat - '0'.toNat)) 0

/-- The pid parsing of `_started`:
`[int(i) for i in data.strip().split('\n') if i.isdigit()]`. -/
def parsePids (data : String) : List Nat :=
  ((pySplit '\n' (pyStrip data.data)).filter pyIsDigit).map digitsToNat

/-- The external world and method table a `ServiceService` call runs
against. -/
structure Sys where
  /-- `getattr(self, '_' + action + '_' + what)`: `some b` means the
  specialized method exists, with `b = true` when calling it raises. -/
  special : String → String → Option Bool
  /-- `getattr(self, '_started_' + what)`: `some b` means the
  specialized started-check exists and returns `b`. -/
  startedSpecial : String → Option Bool
  /-- Result of running a pgrep command line: `some out` = returncode 0
  with stdout `out`; `none` = non-zero returncode. -/
  pgrepOut : String → Option String
  /-- Filesystem marker state seen by watcher threads. -/
  marker : MarkerEnv

/-- Result of one `_started` call: the returned pair
(`alive`, `pids`), plus two observations used to state frame and
latency properties: which pgrep command line was run (`cmd = none` when
no process lookup happened) and how long the `notify.join()` blocked
(`waited`, in tenths). -/
structure StartedRes where
  alive : Bool
  pids : List Nat
  cmd : Option String
  waited : Nat
  deriving DecidableEq, Repr

/-- `ServiceService._started`.  For a service absent from
`SERVICE_DEFS` the source returns `False, []` without joining the
notify thread and without running pgrep. -/
def started_ (sys : Sys) (what : String) (notify : Option RunResult) : StartedRes :=
  match lookupDef what with
  | some d =>
    let waited := match notify with
      | some r => r.endTime
      | none => 0
    let cmd := pgrepCmd d
    match sys.pgrepOut cmd with
    | some out => ⟨true, parsePids out, some cmd, waited⟩
    | none => ⟨false, [], some cmd, waited⟩
  | none => ⟨false, [], none, 0⟩

/-- `ServiceService._started_notify`: spawn a `StartNotify` thread for
a known service (its eventual run outcome is the `RunResult`), `None`
for an unknown one. -/
def started_notify (sys : Sys) (verb what : String) : Option RunResult :=
  match lookupDef what with
  | some d => some (StartNotify.run sys.marker d.pidfile verb)
  | none => none

/-- `ServiceService.started`: use `_started_<what>()` when it exists,
else the boolean component `self._started(what, sn)[0]`. -/
def started (sys : Sys) (what : String) (sn : Option RunResult) : Bool :=
  match sys.startedSpecial what with
  | some b => b
  | none => (started_ sys what sn).alive

/-! ### Status classification and aggregation -/

/-- One service record as handed to `_get_status` by `query`
(a row of `datastore.query('services.services', ...)`).  The source
stores `state` and `pids` by mutating this same dict; fields that have
not been written yet are `none`. -/
structure Entry where
  service : String
  enable : Bool
  state : Option String := none
  pids : Option (List Nat) := none
  deriving DecidableEq, Repr

/-- `ServiceService._get_status`: classify one service from the
`_started` result and the `enable` flag, writing `state` and `pids`
into the entry. -/
def get_status (sys : Sys) (entry : Entry) : Entry :=
  let r := started_ sys entry.service none
  let state :=
    if r.alive then "RUNNING"
    else if entry.enable then "CRASHED"
    else "STOPPED"
  { entry with state := some state, pids := some r.pids }

/-- The timeout substitution of `query`'s inner `result` function:
`entry['state'] = 'UNKNOWN'; entry['pids'] = []` written into the same
entry. -/
def unknownSub (entry : Entry) : Entry :=
  { entry with state := some "UNKNOWN", pids := some [] }

/-- Modelled from the spec: `middlewared.utils.filter_list` is not under
`src/`; with no filters the spec's `queryAll(filter?)` returns the
sequence of statuses unchanged, in input order. -/
def filter_list (services : List Entry) : List Entry :=
  services

/-- `ServiceService.query` with no filters: spawn `_get_status` per
entry, `joinall` with a 15-time-unit timeout, and replace every
greenlet still unfinished at the deadline (`finished i = false`, so
`greenlet.value is None`) by the UNKNOWN substitution.  The jobs dict
and its iteration are insertion-ordered, so results follow input
order. -/
def query (sys : Sys) (finished : Nat → Bool) (services : List Entry) : List Entry :=
  filter_list <| services.enum.map fun p =>
    if finished p.1 then get_status sys p.2 else unknownSub p.2

/-- The heap of service entries as observable when `query` returns at
the 15-time-unit deadline: entries whose greenlet finished hold the
`_get_status` classification, the rest hold the UNKNOWN substitution.
The list returned to the caller aliases exactly these records. -/
def heapAtDeadline (sys : Sys) (finished : Nat → Bool) (services : List Entry) : List Entry :=
  services.enum.map fun p =>
    if finished p.1 then get_status sys p.2 else unknownSub p.2

/-- The same heap after `query` has returned, once the greenlets that
missed the deadline (`late i = true`) run to completion: each such
greenlet's `_get_status` writes `state` and `pids` into the very record
that was already handed to the caller as the UNKNOWN sentinel. -/
def heapAfterLate (sys : Sys) (finished late : Nat → Bool) (services : List Entry) : List Entry :=
  services.enum.map fun p =>
    if finished p.1 then get_status sys p.2
    else if late p.1 then get_status sys (unknownSub p.2)
    else unknownSub p.2

/-! ### Command dispatch -/

/-- The failure modes of `_simplecmd`: the `ValueError("Internal
error: Unknown command")` raised for an unrecognized verb, and an
exception raised by a specialized `_<action>_<what>` method. -/
inductive SimpleErr
  | unknownCommand
  | methodFailure
  deriving DecidableEq, Repr

/-- The four verbs the generic `/usr/sbin/service` fallback accepts. -/
def knownVerbs : List String := ["start", "stop", "restart", "reload"]

/-- `ServiceService._simplecmd`: returns the `_system` command lines
executed by the generic fallback (a specialized method's own commands
are internal to it) together with the exception raised, if any. -/
def simplecmd (sys : Sys) (action what : String) : List String × Option SimpleErr :=
  match sys.special action what with
  | some raises => if raises then ([], some .methodFailure) else ([], none)
  | none =>
    let target := match lookupDef what with
      | some d => match d.procname with
        | some p => p
        | none => what
      | none => what
    if action ∈ knownVerbs then
      ((if action = "restart" then ["/usr/sbin/service " ++ target ++ " forcestop "] else []) ++
        ["/usr/sbin/service " ++ target ++ " " ++ action], none)
    else
      ([], some .unknownCommand)

/-- `ServiceService.start`: hook, spawn the notify watcher, run the
command sequence, then return `self.started(service, sn)`.  The result
is `none` when `_simplecmd` raised (the exception propagates), else
`some` of the boolean started flag; the second component counts how
many times a restart command sequence was dispatched. -/
def start (sys : Sys) (service : String) : Option Bool × Nat :=
  let sn := started_notify sys "start" service
  match (simplecmd sys "start" service).2 with
  | some _ => (none, 0)
  | none => (some (started sys service sn), 0)

/-- `ServiceService.stop`: same shape as `start` with verb `stop`. -/
def stop (sys : Sys) (service : String) : Option Bool × Nat :=
  let sn := started_notify sys "stop" service
  match (simplecmd sys "stop" service).2 with
  | some _ => (none, 0)
  | none => (some (started sys service sn), 0)

/-- `ServiceService.restart`: hook, notify watcher, dispatch the
restart sequence (counted), then `self.started(service, sn)`. -/
def restart (sys : Sys) (service : String) : Option Bool × Nat :=
  let sn := started_notify sys "restart" service
  match (simplecmd sys "restart" service).2 with
  | some _ => (none, 1)
  | none => (some (started sys service sn), 1)

/-- `ServiceService.reload`: try the reload sequence; on any exception
fall back to `self.restart(service)` (whose own exception propagates);
finally return `self.started(service)` with no notify handle. -/
def reload (sys : Sys) (service : String) : Option Bool × Nat :=
  match (simplecmd sys "reload" service).2 with
  | none => (some (started sys service none), 0)
  | some _ =>
    match restart sys service with
    | (none, n) => (none, n)
    | (some _, n) => (some (started sys service none), n)

/-! ### Helper lemmas -/

/-- A negative `_started` result always carries an empty pid list. -/
theorem started_not_alive_pids (sys : Sys) (what : String) (notify : Option RunResult)
    (h : (started_ sys what notify).alive = false) :
    (started_ sys what notify).pids = [] := by
  unfold started_ at *
  rcases hl : lookupDef what with _ | d <;> simp [hl] at *
  rcases hp : sys.pgrepOut (pgrepCmd d) with _ | out <;> simp [hp] at *

/-- The time after one poll check lies within one grace delay of the
entry time. -/
theorem pollCheck_snd_bounds (env : MarkerEnv) (verb : String) (t : Nat) :
    t ≤ (pollCheck env verb t).2 ∧ (pollCheck env verb t).2 ≤ t + 1 := by
  unfold pollCheck
  split_ifs <;> simp

/-- Bounds on the poll loop: at most `rem` further iterations run; when
the loop exhausts its iterations it has run exactly `rem` more, having
slept at least one time unit per iteration; and the finish time never
exceeds one time unit plus one grace delay per iteration. -/
theorem runLoop_bounds (env : MarkerEnv) (verb : String) (rem t polls : Nat) :
    (runLoop env verb rem t polls).polls ≤ polls + rem ∧
    ((runLoop env verb rem t polls).success = false →
      (runLoop env verb rem t polls).polls = polls + rem ∧
      t + 10 * rem ≤ (runLoop env verb rem t polls).endTime) ∧
    (runLoop env verb rem t polls).endTime ≤ t + 11 * rem := by
  induction rem generalizing t polls with
  | zero => simp [runLoop]
  | succ rem ih =>
    have hb := pollCheck_snd_bounds env verb (t + 10)
    unfold runLoop
    by_cases h : (pollCheck env verb (t + 10)).1 <;> simp [h]
    · omega
    · obtain ⟨h1, h2, h3⟩ := ih (pollCheck env verb (t + 10)).2 (polls + 1)
      refine ⟨by omega, fun hs => ?_, by omega⟩
      obtain ⟨h2a, h2b⟩ := h2 hs
      omega

/-! ### Claims -/

/-- C1: status resolution is a pure function of (process-found,
enabled-flag): when `_started` finds a matching process the entry is
classified RUNNING with exactly the matched pids; otherwise the pid
list is empty and the state is CRASHED when `enable` is set, STOPPED
when it is not. -/
theorem getStatus_classification (sys : Sys) (entry : Entry) :
    ((started_ sys entry.service none).alive = true →
      (get_status sys entry).state = some "RUNNING" ∧
      (get_status sys entry).pids = some (started_ sys entry.service none).pids) ∧
    ((started_ sys entry.service none).alive = false →
      (get_status sys entry).pids = some [] ∧
      (get_status sys entry).state =
        some (if entry.enable then "CRASHED" else "STOPPED")) := by
  constructor <;> intro h
  · simp [get_status, h]
  · simp [get_status, h, started_not_alive_pids sys entry.service none h]

/-- A system in which pgrep finds sshd with pids 101 and 102, no
specialized methods exist, and the marker file never appears. -/
def sysRunning : Sys where
  special := fun _ _ => none
  startedSpecial := fun _ => none
  pgrepOut := fun c =>
    if c = "/bin/pgrep -F /var/run/sshd.pid sshd" then some "101\n102" else none
  marker := ⟨fun _ => false, fun _ => 0⟩

/-- C1 witness: with sshd found, the entry is classified RUNNING with
the matched pids. -/
theorem getStatus_classification_witness :
    (get_status sysRunning { service := "ssh", enable := true }).state = some "RUNNING" ∧
    (get_status sysRunning { service := "ssh", enable := true }).pids =
      some (started_ sysRunning "ssh" none).pids :=
  (getStatus_classification sysRunning { service := "ssh", enable := true }).1 (by decide)

/-- C4: one poll of the readiness watcher.  For `start`/`restart` it
succeeds exactly when the marker file exists and, one 0.1 grace delay
after that first observation of existence, still exists with non-zero
size (the grace delay is inserted only after observing existence, so
the check time advances by one tenth exactly in that case); for `stop`
it succeeds exactly when the marker file no longer exists. -/
theorem pollCheck_characterization (env : MarkerEnv) (t : Nat) :
    ((pollCheck env "start" t).1 =
      (env.present t && env.present (t + 1) && decide (0 < env.size (t + 1)))) ∧
    ((pollCheck env "restart" t).1 =
      (env.present t && env.present (t + 1) && decide (0 < env.size (t + 1)))) ∧
    ((pollCheck env "stop" t).1 = !env.present t) ∧
    ((pollCheck env "start" t).2 = if env.present t then t + 1 else t) ∧
    ((pollCheck env "restart" t).2 = if env.present t then t + 1 else t) ∧
    ((pollCheck env "stop" t).2 = t) := by
  by_cases h : env.present t <;> simp [pollCheck, h]

/-- C5: with a pidfile configured the watcher polls at most 5 times
(once per time unit); if the readiness condition is never met it runs
exactly 5 polls and then terminates normally — a plain timeout result,
not an error — after between 5 and 5.5 time units (50 to 55 tenths). -/
theorem run_bounded_attempts (env : MarkerEnv) (verb p : String) :
    (StartNotify.run env (some p) verb).polls ≤ 5 ∧
    ((StartNotify.run env (some p) verb).success = false →
      (StartNotify.run env (some p) verb).polls = 5 ∧
      50 ≤ (StartNotify.run env (some p) verb).endTime) ∧
    (StartNotify.run env (some p) verb).endTime ≤ 55 := by
  simpa [StartNotify.run] using runLoop_bounds env verb 5 0 0

/-- C5 witness: an always-empty marker file never satisfies the start
condition, so the watcher exhausts exactly 5 polls. -/
theorem run_bounded_attempts_witness :
    (StartNotify.run ⟨fun _ => true, fun _ => 0⟩ (some "/var/run/x.pid") "start").polls = 5 ∧
    50 ≤ (StartNotify.run ⟨fun _ => true, fun _ => 0⟩ (some "/var/run/x.pid") "start").endTime :=
  (run_bounded_attempts ⟨fun _ => true, fun _ => 0⟩ "start" "/var/run/x.pid").2.1 (by decide)

/-- C6: dispatching a verb outside start/stop/restart/reload with no
specialized method raises the internal-error `ValueError` — an error
constructor distinct from an adapter method failure — and no external
command line is executed for the call. -/
theorem unknown_verb_error (sys : Sys) (action what : String)
    (hf : sys.special action what = none) (hv : action ∉ knownVerbs) :
    simplecmd sys action what = ([], some .unknownCommand) ∧
    SimpleErr.unknownCommand ≠ SimpleErr.methodFailure := by
  refine ⟨?_, by simp⟩
  simp [simplecmd, hf, hv]

/-- C6 witness: the verb "status" on ssh has no specialized method and
is not a generic verb. -/
theorem unknown_verb_error_witness :
    simplecmd sysRunning "status" "ssh" = ([], some .unknownCommand) ∧
    SimpleErr.unknownCommand ≠ SimpleErr.methodFailure :=
  unknown_verb_error sysRunning "status" "ssh" rfl (by decide)

/-- C7: for a service whose `SERVICE_DEFS` row has no pidfile, the
spawned watcher performs no polling and finishes at time 0 (so joining
it returns at once), and the subsequent `_started` resolution waits on
no watcher. -/
theorem no_pidfile_no_wait (sys : Sys) (verb what : String) (d : SvcDef)
    (h : lookupDef what = some d) (hp : d.pidfile = none) :
    started_notify sys verb what = some ⟨false, 0, 0⟩ ∧
    (started_ sys what (started_notify sys verb what)).waited = 0 := by
  have h1 : started_notify sys verb what = some ⟨false, 0, 0⟩ := by
    simp [started_notify, h, hp, StartNotify.run]
  refine ⟨h1, ?_⟩
  rw [h1]
  unfold started_
  rcases hl : lookupDef what with _ | d' <;> simp [hl]
  rcases hpg : sys.pgrepOut (pgrepCmd d') with _ | out <;> simp [hpg]

/-- C7 witness: `nfs` has procname `nfsd` and no pidfile. -/
theorem no_pidfile_no_wait_witness :
    started_notify sysRunning "start" "nfs" = some ⟨false, 0, 0⟩ ∧
    (started_ sysRunning "nfs" (started_notify sysRunning "start" "nfs")).waited = 0 :=
  no_pidfile_no_wait sysRunning "start" "nfs" ⟨some "nfsd", none⟩ (by decide) rfl

/-- C10: a service name outside `SERVICE_DEFS` with no specialized
started-check yields `started = False` and `_started = (False, [])`
with no pgrep invocation (`cmd = none`) and no join, and
`_started_notify` creates no watcher (returns `None`). -/
theorem unknown_service_started (sys : Sys) (what verb : String) (sn : Option RunResult)
    (h : lookupDef what = none) (hs : sys.startedSpecial what = none) :
    started sys what sn = false ∧
    started_ sys what sn = ⟨false, [], none, 0⟩ ∧
    started_notify sys verb what = none := by
  refine ⟨?_, ?_, ?_⟩ <;> simp [started, started_, started_notify, h, hs]

/-- C10 witness: "middleware" is not a key of `SERVICE_DEFS`. -/
theorem unknown_service_started_witness :
    started sysRunning "middleware" none = false ∧
    started_ sysRunning "middleware" none = ⟨false, [], none, 0⟩ ∧
    started_notify sysRunning "start" "middleware" = none :=
  unknown_service_started sysRunning "middleware" "start" none (by decide) rfl

/-- C2: the no-filter aggregate query yields exactly one status record
per input service, at the same index as its originating service (same
identity and enable flag), and every service whose resolution missed
the 15-time-unit deadline is replaced by state UNKNOWN with an empty
pid list; the function is total, so no slow service makes the call
fail. -/
theorem query_order_unknown (sys : Sys) (finished : Nat → Bool) (services : List Entry) :
    (query sys finished services).length = services.length ∧
    ∀ i (h : i < services.length),
      ∃ e, (query sys finished services)[i]? = some e ∧
        e.service = (services.get ⟨i, h⟩).service ∧
        e.enable = (services.get ⟨i, h⟩).enable ∧
        (finished i = false → e.state = some "UNKNOWN" ∧ e.pids = some []) := by
  constructor
  · simp [query, filter_list]
  · intro i h
    refine ⟨if finished i then get_status sys (services.get ⟨i, h⟩)
            else unknownSub (services.get ⟨i, h⟩), ?_, ?_, ?_, ?_⟩
    · simp [query, filter_list, List.getElem?_enum, List.getElem?_eq_getElem h]
    · by_cases hf : finished i <;> simp [hf, get_status, unknownSub]
    · by_cases hf : finished i <;> simp [hf, get_status, unknownSub]
    · intro hf
      simp [hf, unknownSub]

/-- C2 witness: one never-finishing service degrades to the UNKNOWN
sentinel at index 0. -/
theorem query_order_unknown_witness :
    ∃ e, (query sysRunning (fun _ => false) [{ service := "ssh", enable := true }])[0]? = some e ∧
      e.service = "ssh" ∧
      e.enable = true ∧
      (false = false → e.state = some "UNKNOWN" ∧ e.pids = some []) :=
  (query_order_unknown sysRunning (fun _ => false)
    [{ service := "ssh", enable := true }]).2 0 (by decide)

/-- C3: when the reload command sequence raises, `reload` dispatches
the restart sequence exactly once and, provided that restart sequence
does not itself raise, returns the freshly resolved started status;
a raising command sequence for any other verb propagates as a failure
with no fallback restart dispatched beyond the action itself. -/
theorem reload_fallback (sys : Sys) (service : String) :
    ((simplecmd sys "reload" service).2 ≠ none →
      (reload sys service).2 = 1 ∧
      ((simplecmd sys "restart" service).2 = none →
        reload sys service = (some (started sys service none), 1))) ∧
    ((simplecmd sys "start" service).2 ≠ none → start sys service = (none, 0)) ∧
    ((simplecmd sys "stop" service).2 ≠ none → stop sys service = (none, 0)) ∧
    ((simplecmd sys "restart" service).2 ≠ none → restart sys service = (none, 1)) := by
  refine ⟨fun h => ?_, fun h => ?_, fun h => ?_, fun h => ?_⟩
  · rcases he : (simplecmd sys "reload" service).2 with _ | e
    · exact absurd he h
    · refine ⟨?_, fun hr => ?_⟩
      · rcases hr : (simplecmd sys "restart" service).2 with _ | e2 <;>
          simp [reload, restart, he, hr]
      · simp [reload, restart, he, hr]
  · rcases he : (simplecmd sys "start" service).2 with _ | e
    · exact absurd he h
    · simp [start, he]
  · rcases he : (simplecmd sys "stop" service).2 with _ | e
    · exact absurd he h
    · simp [stop, he]
  · rcases he : (simplecmd sys "restart" service).2 with _ | e
    · exact absurd he h
    · simp [restart, he]

/-- A system whose specialized `_reload_ftp` method exists and raises,
while every other action falls through to the generic dispatch. -/
def sysReloadFail : Sys where
  special := fun a w => if a = "reload" ∧ w = "ftp" then some true else none
  startedSpecial := fun _ => none
  pgrepOut := fun _ => none
  marker := ⟨fun _ => false, fun _ => 0⟩

/-- C3 witness: with a raising reload method and a working generic
restart, reload dispatches exactly one restart and resolves status. -/
theorem reload_fallback_witness :
    (reload sysReloadFail "ftp").2 = 1 ∧
    reload sysReloadFail "ftp" = (some (started sysReloadFail "ftp" none), 1) :=
  ⟨((reload_fallback sysReloadFail "ftp").1 (by decide)).1,
   ((reload_fallback sysReloadFail "ftp").1 (by decide)).2 (by decide)⟩

/-- A system in which pgrep reports sshd running with pid 1. -/
def sysPidOne : Sys where
  special := fun _ _ => none
  startedSpecial := fun _ => none
  pgrepOut := fun c =>
    if c = "/bin/pgrep -F /var/run/sshd.pid sshd" then some "1" else none
  marker := ⟨fun _ => false, fun _ => 0⟩

/-- A system identical to `sysPidOne` except that the matched pid is 2. -/
def sysPidTwo : Sys where
  special := fun _ _ => none
  startedSpecial := fun _ => none
  pgrepOut := fun c =>
    if c = "/bin/pgrep -F /var/run/sshd.pid sshd" then some "2" else none
  marker := ⟨fun _ => false, fun _ => 0⟩

/-- C8 counterexample: two executions whose matched process-id lists
differ ([1] versus [2]) make the caller-facing `start` return the
identical value `(some true, 0)` — the boolean started flag from
`self._started(what, sn)[0]` — so the value returned by
start/stop/restart/reload carries no process-id list and is not a
state-plus-pids ServiceStatus. -/
theorem perform_returns_bool_cex :
    start sysPidOne "ssh" = start sysPidTwo "ssh" ∧
    start sysPidOne "ssh" = (some true, 0) ∧
    (started_ sysPidOne "ssh" none).pids = [1] ∧
    (started_ sysPidTwo "ssh" none).pids = [2] ∧
    (started_ sysPidOne "ssh" none).pids ≠ (started_ sysPidTwo "ssh" none).pids := by
  decide

/-- C8 amended: each caller-facing verb whose command dispatch does not
raise returns `some` of the boolean started flag (plus, in this model,
the restart-dispatch count); only `_get_status`/`query` produce records
carrying both a state and a pid list. -/
theorem perform_returns_started_bool (sys : Sys) (service : String) :
    ((simplecmd sys "start" service).2 = none →
      start sys service =
        (some (started sys service (started_notify sys "start" service)), 0)) ∧
    ((simplecmd sys "stop" service).2 = none →
      stop sys service =
        (some (started sys service (started_notify sys "stop" service)), 0)) ∧
    ((simplecmd sys "restart" service).2 = none →
      restart sys service =
        (some (started sys service (started_notify sys "restart" service)), 1)) ∧
    ((simplecmd sys "reload" service).2 = none →
      reload sys service = (some (started sys service none), 0)) := by
  refine ⟨fun h => ?_, fun h => ?_, fun h => ?_, fun h => ?_⟩ <;>
    simp [start, stop, restart, reload, h]

/-- C8 amended witness: all four verbs on ssh return the boolean
started flag. -/
theorem perform_returns_started_bool_witness :
    start sysPidOne "ssh" =
      (some (started sysPidOne "ssh" (started_notify sysPidOne "start" "ssh")), 0) ∧
    stop sysPidOne "ssh" =
      (some (started sysPidOne "ssh" (started_notify sysPidOne "stop" "ssh")), 0) ∧
    restart sysPidOne "ssh" =
      (some (started sysPidOne "ssh" (started_notify sysPidOne "restart" "ssh")), 1) ∧
    reload sysPidOne "ssh" = (some (started sysPidOne "ssh" none), 0) :=
  ⟨(perform_returns_started_bool sysPidOne "ssh").1 (by decide),
   (perform_returns_started_bool sysPidOne "ssh").2.1 (by decide),
   (perform_returns_started_bool sysPidOne "ssh").2.2.1 (by decide),
   (perform_returns_started_bool sysPidOne "ssh").2.2.2 (by decide)⟩

/-- The entry used in the aliasing scenario. -/
def entrySsh : Entry := { service := "ssh", enable := true }

/-- C9 counterexample: one service misses the deadline, so the caller
receives the UNKNOWN sentinel written into the shared entry record; the
still-running resolution later completes and `_get_status` overwrites
that same record with RUNNING/[1], so the status already returned to
the caller is mutated afterwards. -/
theorem status_mutation_cex :
    heapAfterLate sysPidOne (fun _ => false) (fun _ => true) [entrySsh] ≠
      heapAtDeadline sysPidOne (fun _ => false) [entrySsh] ∧
    heapAtDeadline sysPidOne (fun _ => false) [entrySsh] =
      [{ entrySsh with state := some "UNKNOWN", pids := some [] }] ∧
    heapAfterLate sysPidOne (fun _ => false) (fun _ => true) [entrySsh] =
      [{ entrySsh with state := some "RUNNING", pids := some [1] }] := by
  decide

/-- C9 amended: statuses are written in place into the shared service
entry records.  A record whose resolution finished by the deadline is
not changed afterwards, but a record substituted with the UNKNOWN
sentinel is overwritten by `_get_status` when its still-running
resolution completes late. -/
theorem status_written_in_place (sys : Sys) (finished late : Nat → Bool)
    (services : List Entry) (i : Nat) (h : i < services.length) :
    (finished i = true →
      (heapAfterLate sys finished late services)[i]? =
        (heapAtDeadline sys finished services)[i]?) ∧
    (finished i = false → late i = true →
      (heapAfterLate sys finished late services)[i]? =
        some (get_status sys (unknownSub (services.get ⟨i, h⟩)))) := by
  constructor
  · intro hf
    rcases hsi : services[i]? with _ | s <;>
      simp [heapAfterLate, heapAtDeadline, List.getElem?_enum, hsi, hf]
  · intro hf hl
    simp [heapAfterLate, List.getElem?_enum, List.getElem?_eq_getElem h, hf, hl]

/-- C9 amended witness: the UNKNOWN-substituted ssh entry is later
overwritten with its late classification. -/
theorem status_written_in_place_witness :
    (heapAfterLate sysPidOne (fun _ => false) (fun _ => true) [entrySsh])[0]? =
      some (get_status sysPidOne (unknownSub entrySsh)) :=
  (status_written_in_place sysPidOne (fun _ => false) (fun _ => true)
    [entrySsh] 0 (by decide)).2 rfl rfl

end Middleware
